import Mathlib

/-!
Verification of the LLM web-interface capture pipeline (GPT and Claude batch
runners).  The definitions below are shallow embeddings of the JavaScript
source: the HAR/SSE correlation loop, the DOM-text stability detector, the
per-prompt answer persistence, the click-retry helper, the batch loop's
control flow, the CSV prompt-catalog loader with the startup sequencing of
the main flow, and (modelled from the spec, since the reconstruction script
is not part of the sources) the offline SSE reconstructor.
-/

/-! ## HAR trace entries and SSE injection (HAR/SSE correlator) -/

/-- The mime type that marks the streaming exchange,
`entry.response.content.mimeType === 'text/event-stream'` in the source. -/
def sseMimeType : String := "text/event-stream"

/-- One HAR entry.  `mimeType`, `text` and `size` embed
`entry.response.content.{mimeType,text,size}`; `rest` stands for every other
field of the entry (request data, timings, headers), which the correlation
loop never touches. -/
structure HarEntry where
  rest : String
  mimeType : String
  text : String
  size : Nat
deriving DecidableEq

/-- The body of the injection loop at a matching entry:
`entry.response.content.text = sseText; entry.response.content.size =
Buffer.byteLength(sseText, 'utf8')`. -/
def overwriteStream (e : HarEntry) (s : String) : HarEntry :=
  { e with text := s, size := s.utf8ByteSize }

/-- The injection loop over `harJson.log.entries`: the first entry whose
response content mime type is `text/event-stream` is overwritten and the
loop `break`s; earlier (non-matching) entries are passed over. -/
def injectSSE : List HarEntry → String → List HarEntry
  | [], _ => []
  | e :: es, s =>
    if e.mimeType = sseMimeType then overwriteStream e s :: es
    else e :: injectSSE es s

/-- A log line of the runner: `console.log` / `console.warn` /
`console.error`. -/
inductive LogMsg
  | info (msg : String)
  | warn (msg : String)
  | err (msg : String)
deriving DecidableEq

/-- Whether a log line is a warning (`console.warn`). -/
def isWarnMsg : LogMsg → Bool
  | .warn _ => true
  | _ => false

/-- The whole "Inject SSE into HAR" step of the runner: read the trace, run
the injection loop, write the trace back, and log the success line.  The
`catch` branch of the source fires only on an I/O or JSON-parse failure,
which the in-memory model has no counterpart of, so the step always takes
the `try` path here: it produces the rewritten entries and a single
`console.log` message — no branch of the step emits a warning. -/
def injectSSEStep (entries : List HarEntry) (sseText : String) :
    List HarEntry × List LogMsg :=
  (injectSSE entries sseText, [LogMsg.info "HAR updated with SSE"])

/-! ## Completion detector (`waitForResponseStability` / `waitForClaudeStability`) -/

/-- Result of one run of the stability wait: the returned text together with
the time (in the same unit as `pollInterval`) at which the loop returned.
The time component is observable instrumentation; the source returns only
the text. -/
structure StabilityResult where
  text : String
  returnTime : Nat
deriving DecidableEq

/-- The polling loop of `waitForResponseStability`, with time discretised so
that the n-th snapshot read happens at time `n * pollInterval`.  State:
remaining fuel (the loop guard `Date.now() - start < maxTimeout` is what
actually stops it), poll counter `n`, `lastText` and `stableSince` exactly
as in the source.  `snap n` is the accessor's rendered text at the n-th
poll. -/
def stabilityGo (snap : Nat → String) (stabilityMs maxTimeout pollInterval : Nat) :
    Nat → Nat → String → Nat → StabilityResult
  | 0, n, last, _ => ⟨last, n * pollInterval⟩
  | fuel + 1, n, last, since =>
    if n * pollInterval < maxTimeout then
      let cur := snap n
      if cur = last then
        if stabilityMs ≤ n * pollInterval - since then ⟨cur, n * pollInterval⟩
        else stabilityGo snap stabilityMs maxTimeout pollInterval fuel (n + 1) last since
      else stabilityGo snap stabilityMs maxTimeout pollInterval fuel (n + 1) cur (n * pollInterval)
    else ⟨last, n * pollInterval⟩

/-- `waitForResponseStability`: `lastText = ''` and `stableSince = start` on
entry; poll until the text has been unchanged for at least `stabilityMs`, or
return the last snapshot once `maxTimeout` has elapsed.  The fuel
`maxTimeout + 1` dominates the number of loop iterations whenever
`pollInterval ≥ 1`, so the loop guard is what decides termination. -/
def waitForResponseStability (snap : Nat → String)
    (stabilityMs maxTimeout pollInterval : Nat) : StabilityResult :=
  stabilityGo snap stabilityMs maxTimeout pollInterval (maxTimeout + 1) 0 "" 0

/-! ## Persisted answer files -/

/-- The literal placeholder body written when no answer was captured. -/
def noAnswerPlaceholder : String := "[no answer captured]"

/-- The header of a response file:
`Prompt: ${promptText}\nTimestamp: ${new Date().toISOString()}\n\n`. -/
def answerHeader (promptText ts : String) : String :=
  "Prompt: " ++ promptText ++ "\nTimestamp: " ++ ts ++ "\n\n"

/-- The full persisted response file:
`header + (finalAnswer || '[no answer captured]')` — the placeholder is used
exactly when `finalAnswer` is the empty string. -/
def savedAnswerFile (promptText ts finalAnswer : String) : String :=
  answerHeader promptText ts ++
    (if finalAnswer = "" then noAnswerPlaceholder else finalAnswer)

/-! ## Claude runner prompt text -/

/-- The Claude runner builds the submitted text as
`"Search the web for: " + prompts[idx]`. -/
def claudePromptFor (prompts : List String) (idx : Nat) : String :=
  "Search the web for: " ++ prompts.getD idx ""

/-- The text typed into the composer for prompt `idx` (the same
`promptText` local is later reused for the response-file header). -/
def claudeSubmittedText (prompts : List String) (idx : Nat) : String :=
  claudePromptFor prompts idx

/-- The response file the Claude runner persists for prompt `idx`. -/
def claudeSavedAnswerFile (prompts : List String) (idx : Nat) (ts answer : String) : String :=
  savedAnswerFile (claudePromptFor prompts idx) ts answer

/-! ## `safeClick` and the batch loop's control flow -/

/-- Outcome of one click attempt inside `safeClick`, classified the way the
source classifies the caught message: success, a transient error (detached
frame / detached node / destroyed execution context / timeout, which the
loop swallows and retries after `sleep(500)`), or any other error (which is
re-thrown at once). -/
inductive ClickOutcome
  | ok
  | transientError
  | fatalError
deriving DecidableEq

/-- The `for (let i = 0; i < attempts; i++)` retry loop of `safeClick`.
`outcome i` is what the i-th `waitForSelector`/`click` attempt does.  On
success the number of attempts consumed is returned (instrumentation; the
source returns nothing). -/
def safeClickGo (outcome : Nat → ClickOutcome) : Nat → Nat → Except String Nat
  | _, 0 => .error "safeClick failed for selector"
  | i, remaining + 1 =>
    match outcome i with
    | .ok => .ok (i + 1)
    | .transientError => safeClickGo outcome (i + 1) remaining
    | .fatalError => .error "non-transient click error"

/-- `safeClick` with its default of 3 attempts and fixed 500 ms backoff
between transient failures. -/
def safeClick (outcome : Nat → ClickOutcome) (attempts : Nat) : Except String Nat :=
  safeClickGo outcome 0 attempts

/-- What one execution of a prompt's whole processing sequence (enable
mode, submit, await SSE, await stability) does: succeeds with the stabilised
answer text, or throws — with a transient UI error or any other error. -/
inductive PromptAttemptResult
  | ok (answer : String)
  | transientUIFailure
  | otherError
deriving DecidableEq

/-- The observable outcome the batch loop leaves behind for one prompt:
how many times the processing sequence was invoked, the response file the
`finally` block persisted, and whether the sequence completed without
throwing. -/
structure PromptRecord where
  attemptsMade : Nat
  savedFile : String
  completedNormally : Bool
deriving DecidableEq

/-- One iteration of the batch `for` loop: the prompt's processing sequence
runs inside a single `try` — it is invoked exactly once (attempt 0); any
thrown error is caught and logged, and the `finally` block persists the
response file with whatever `finalAnswer` holds (still `''` when the
sequence threw before stabilisation). -/
def runPrompt (attempt : Nat → PromptAttemptResult) (promptText ts : String) :
    PromptRecord :=
  match attempt 0 with
  | .ok answer => ⟨1, savedAnswerFile promptText ts answer, true⟩
  | .transientUIFailure => ⟨1, savedAnswerFile promptText ts "", false⟩
  | .otherError => ⟨1, savedAnswerFile promptText ts "", false⟩

/-- The batch `for` loop over the prompts.  `behavior idx a` is what the
a-th invocation of prompt `idx`'s processing sequence would do (the source
only ever performs invocation 0). -/
def processPromptsGo (behavior : Nat → Nat → PromptAttemptResult) (ts : String) :
    Nat → List String → List PromptRecord
  | _, [] => []
  | idx, p :: rest =>
    runPrompt (behavior idx) p ts :: processPromptsGo behavior ts (idx + 1) rest

/-- `processPromptsBatch`, restricted to its per-prompt control flow. -/
def processPromptsBatch (behavior : Nat → Nat → PromptAttemptResult)
    (prompts : List String) (ts : String) : List PromptRecord :=
  processPromptsGo behavior ts 0 prompts

/-! ## CSV prompt catalog and startup sequencing -/

/-- A parsed CSV row: the header-keyed cells of the row, as `csv-parse`
with `columns: true` produces them (a key is absent when
`relax_column_count` dropped a short row's trailing cells). -/
abbrev CsvRecord := List (String × String)

/-- `r[name]`: the cell of a record under a column name (`undefined` when
the key is absent). -/
def cellValue (r : CsvRecord) (name : String) : Option String :=
  (r.find? (fun c => c.1 = name)).map (fun c => c.2)

/-- `name in r`: key presence on the row object. -/
def hasColumn (name : String) (r : CsvRecord) : Bool :=
  (cellValue r name).isSome

/-- `r.query === undefined ? '' : r.query.toString()`. -/
def extractQuery (r : CsvRecord) : String :=
  (cellValue r "query").getD ""

/-- A prompt-catalog source as `loadCsvPrompts` can encounter it: the file
is missing, the file exists but `parse` throws, or `parse` yields a row
list. -/
inductive CsvSource
  | missing (file : String)
  | unparsable (file msg : String)
  | parsed (file : String) (records : List CsvRecord)

/-- `loadCsvPrompts`: missing file, parse failure, empty row list and a
first row without the `query` key all throw; otherwise every row maps to
its (possibly empty) `query` cell. -/
def loadCsvPrompts : CsvSource → Except String (List String)
  | .missing f => .error ("Missing CSV file: " ++ f)
  | .unparsable f m => .error ("Failed to parse CSV (" ++ f ++ "): " ++ m)
  | .parsed f records =>
    match records with
    | [] => .error ("CSV has no data rows: " ++ f)
    | r0 :: rest =>
      if hasColumn "query" r0 then .ok ((r0 :: rest).map extractQuery)
      else .error ("CSV does not have a 'query' header column: " ++ f)

/-- Whether loading a source throws. -/
def loadFailed (src : CsvSource) : Bool :=
  match loadCsvPrompts src with
  | .error _ => true
  | .ok _ => false

/-- Observable startup effects of the main flow: writing a job's prompt
catalog (which creates that job's output directory) and launching the
browser. -/
inductive StartupEvent
  | savedCatalog (jobIdx : Nat)
  | launchedBrowser
deriving DecidableEq

/-- The startup of the main flow: `csvJobs.map` loads each source and saves
its catalog in order, before `puppeteer.launch`; a load error propagates out
of the map and the process dies before any later effect. -/
def startupRun : List CsvSource → Nat → List StartupEvent × Except String Unit
  | [], _ => ([StartupEvent.launchedBrowser], Except.ok ())
  | job :: rest, i =>
    match loadCsvPrompts job with
    | .error e => ([], .error e)
    | .ok _ =>
      (StartupEvent.savedCatalog i :: (startupRun rest (i + 1)).1,
       (startupRun rest (i + 1)).2)

/-- The main flow's startup over the configured job list. -/
def mainStartup (jobs : List CsvSource) : List StartupEvent × Except String Unit :=
  startupRun jobs 0

/-! ## Offline reconstructor (modelled from the spec) -/

/-- One framed record of the streaming exchange: an incremental text delta,
a heartbeat/control marker, or the terminal marker. -/
inductive SSERecord
  | delta (t : String)
  | control
  | terminal
deriving DecidableEq

/-- Modelled from the spec: the reconstruction script
(`reconstruct_answers.py`) is not among the sources; per the spec the stored
body parses as newline-delimited event records whose `data:`-prefixed lines
carry a payload that is an incremental text delta, a heartbeat/control
marker, or a terminal marker.  The adapter-specific payload schema is
abstracted to three distinguished payload forms. -/
def classifyDataLine (line : String) : Option SSERecord :=
  if line.startsWith "data: " then
    let payload := line.drop 6
    if payload = "done" then some SSERecord.terminal
    else if payload = "ping" then some SSERecord.control
    else some (SSERecord.delta payload)
  else none

/-- Modelled from the spec: parse a stored streaming body into its ordered
record sequence. -/
def parseSSEBody (body : String) : List SSERecord :=
  (body.splitOn "\n").filterMap classifyDataLine

/-- Modelled from the spec: filter out control records, concatenate the
deltas in sequence order, stop at the terminal marker (or at the end of the
records when none is present). -/
def reconstructFrames : List SSERecord → String
  | [] => ""
  | SSERecord.terminal :: _ => ""
  | SSERecord.control :: rest => reconstructFrames rest
  | SSERecord.delta t :: rest => t ++ reconstructFrames rest

/-- The streaming entry of a trace, located by the same identification rule
as the correlator. -/
def findStreamEntry : List HarEntry → Option HarEntry
  | [] => none
  | e :: es => if e.mimeType = sseMimeType then some e else findStreamEntry es

/-- Modelled from the spec: the reconstructed answer text of an archived
trace — a pure function of the trace content. -/
def reconstructText (tr : List HarEntry) : String :=
  match findStreamEntry tr with
  | none => ""
  | some e => reconstructFrames (parseSSEBody e.text)

/-- Modelled from the spec: one reconstruction run over an archived trace
overwrites the unresolved placeholder slot of the response artifact with the
text derived from the trace; the artifact's current content is never read as
an input of the reconstruction. -/
def applyReconstruction (tr : List HarEntry) (_artifact : String) : String :=
  reconstructText tr

/-! ## Concrete inputs used in counterexamples and witnesses -/

/-- A snapshot source emitting a, a, a, b, b, b, ... at one tick per poll. -/
def seqAB : Nat → String := fun n => if n < 3 then "a" else "b"

/-- A render that stays empty for ten ticks and then shows text. -/
def emptyThenHello : Nat → String := fun n => if n < 10 then "" else "hello"

/-- A render that never shows any text. -/
def alwaysEmpty : Nat → String := fun _ => ""

/-- A render that flips from empty to non-empty within the stability
window. -/
def emptyThenX : Nat → String := fun n => if n < 2 then "" else "x"

/-- A non-streaming trace entry. -/
def entryA : HarEntry := ⟨"req-a", "application/json", "body-a", 6⟩

/-- The streaming trace entry, with the truncated (empty) captured body. -/
def entryB : HarEntry := ⟨"req-b", "text/event-stream", "", 0⟩

/-- Another non-streaming trace entry. -/
def entryC : HarEntry := ⟨"req-c", "text/html", "page", 4⟩

/-- A trace whose only streaming entry sits at index 1. -/
def traceEx : List HarEntry := [entryA, entryB, entryC]

/-- Per-prompt behaviour whose first processing attempt raises a transient
UI failure and whose second attempt would succeed. -/
def retryCexBehavior : Nat → Nat → PromptAttemptResult :=
  fun _ a => if a = 0 then PromptAttemptResult.transientUIFailure
             else PromptAttemptResult.ok "recovered"

/-- Per-prompt behaviour that always succeeds on its single attempt. -/
def behaviorW : Nat → Nat → PromptAttemptResult :=
  fun _ _ => PromptAttemptResult.ok "ans"

/-- Click attempts: the first click fails transiently, later ones land. -/
def clickSeqW : Nat → ClickOutcome :=
  fun n => if n = 0 then ClickOutcome.transientError else ClickOutcome.ok

/-! ## Theorems -/

/-- The injection loop rewrites the first streaming entry and leaves every
other position of the trace untouched. -/
theorem injectSSE_spec (s : String) :
    ∀ (tr : List HarEntry) (i : Nat) (e : HarEntry), tr[i]? = some e →
    e.mimeType = sseMimeType →
    (∀ j e', j < i → tr[j]? = some e' → e'.mimeType ≠ sseMimeType) →
    (injectSSE tr s)[i]? = some (overwriteStream e s) ∧
    ∀ j, j ≠ i → (injectSSE tr s)[j]? = tr[j]? := by
  intro tr
  induction tr with
  | nil => intro i e hget; simp at hget
  | cons a as ih =>
    intro i e hget hmime hfirst
    cases i with
    | zero =>
      have ha : a = e := by simpa using hget
      subst ha
      simp only [injectSSE, if_pos hmime]
      refine ⟨by simp, ?_⟩
      intro j hj
      cases j with
      | zero => exact absurd rfl hj
      | succ j' => simp
    | succ i' =>
      have hne : a.mimeType ≠ sseMimeType :=
        hfirst 0 a (Nat.succ_pos i') (by simp)
      have hget' : as[i']? = some e := by simpa using hget
      have hfirst' : ∀ j e', j < i' → as[j]? = some e' →
          e'.mimeType ≠ sseMimeType := by
        intro j e' hj hg
        exact hfirst (j + 1) e' (Nat.succ_lt_succ hj) (by simpa using hg)
      obtain ⟨hmain, hrest⟩ := ih i' e hget' hmime hfirst'
      simp only [injectSSE, if_neg hne]
      refine ⟨by simpa using hmain, ?_⟩
      intro j hj
      cases j with
      | zero => simp
      | succ j' =>
        have := hrest j' (fun hh => hj (by rw [hh]))
        simpa using this

/-- Claim C1: for every captured trace and captured stream text `s`,
correlation overwrites the body text of the first entry whose response
content mime type is `text/event-stream` with `s`, sets that entry's
declared size to the UTF-8 byte length of `s`, corrects only that first
matching entry, and leaves every other entry of the trace unchanged. -/
theorem injectSSE_corrects_first_entry (tr : List HarEntry) (s : String)
    (i : Nat) (e : HarEntry) (hget : tr[i]? = some e)
    (hmime : e.mimeType = sseMimeType)
    (hfirst : ∀ j e', j < i → tr[j]? = some e' → e'.mimeType ≠ sseMimeType) :
    (injectSSE tr s)[i]? = some (overwriteStream e s) ∧
    (overwriteStream e s).text = s ∧
    (overwriteStream e s).size = s.utf8ByteSize ∧
    ∀ j, j ≠ i → (injectSSE tr s)[j]? = tr[j]? := by
  obtain ⟨h1, h2⟩ := injectSSE_spec s tr i e hget hmime hfirst
  exact ⟨h1, rfl, rfl, h2⟩

/-- Witness for C1: on the concrete three-entry trace whose streaming entry
sits at index 1, correlation rewrites exactly that entry. -/
theorem injectSSE_corrects_first_entry_witness :
    (injectSSE traceEx "S")[1]? = some (overwriteStream entryB "S") ∧
    (overwriteStream entryB "S").text = "S" ∧
    (overwriteStream entryB "S").size = "S".utf8ByteSize ∧
    ∀ j, j ≠ 1 → (injectSSE traceEx "S")[j]? = traceEx[j]? := by
  refine injectSSE_corrects_first_entry traceEx "S" 1 entryB (by decide) (by decide) ?_
  intro j e' hj hg
  interval_cases j
  have : e' = entryA := by simpa [traceEx] using hg.symm
  subst this
  decide

/-- Counterexample to claim C2: for the source emitting a, a, a, b, b, b at
one tick per poll and a stability window of 2 ticks, the detector does not
resolve to "b". -/
theorem stability_two_ticks_cex :
    (waitForResponseStability seqAB 2 60 1).text ≠ "b" := by decide

/-- Claim C2 amended: with `stabilityWindow = 2` ticks the detector resolves
to "a", returning at tick 2 — at the third consecutive poll of "a" the text
has been unchanged for 2 ticks, so "a" is accepted before "b" is ever
observed. -/
theorem stability_two_ticks_resolves_a :
    waitForResponseStability seqAB 2 60 1 = ⟨"a", 2⟩ := by decide

/-- Counterexample to claim C3: on a render that stays empty for the first
ten ticks, the detector with a 3-tick stability window returns the empty
snapshot at tick 3 — long before `maxTimeout` (60) — merely because the text
remained empty for the stability window. -/
theorem stability_empty_return_cex :
    waitForResponseStability emptyThenHello 3 60 1 = ⟨"", 3⟩ ∧
    (waitForResponseStability emptyThenHello 3 60 1).returnTime < 60 ∧
    emptyThenHello 10 = "hello" := by decide

/-- Claim C3 amended: a flip between empty and non-empty text is treated as
a change like any other (a flip inside the stability window resets the
clock, so the detector goes on to return the later text), but the detector
does declare completion on a not-yet-started render: text that stays empty
for the whole stability window is returned as the final snapshot before
`maxTimeout` elapses. -/
theorem stability_empty_flip_behavior :
    (waitForResponseStability emptyThenX 3 60 1).text = "x" ∧
    waitForResponseStability alwaysEmpty 3 60 1 = ⟨"", 3⟩ := by decide

/-- Claim C4: for every prompt whose completion detector returns non-empty
text, the persisted response file is the header followed by exactly that
text; when the detector returns empty text, the body after the header is the
literal placeholder. -/
theorem savedAnswerFile_matches_detector_text (p ts a : String) :
    (a ≠ "" → savedAnswerFile p ts a = answerHeader p ts ++ a) ∧
    savedAnswerFile p ts "" = answerHeader p ts ++ noAnswerPlaceholder := by
  constructor
  · intro h
    simp [savedAnswerFile, h]
  · simp [savedAnswerFile]

/-- Witness for C4 at a concrete prompt, timestamp and answer. -/
theorem savedAnswerFile_matches_detector_text_witness :
    savedAnswerFile "q" "T" "hi" = answerHeader "q" "T" ++ "hi" ∧
    savedAnswerFile "q" "T" "" = answerHeader "q" "T" ++ noAnswerPlaceholder :=
  ⟨(savedAnswerFile_matches_detector_text "q" "T" "hi").1 (by decide),
   (savedAnswerFile_matches_detector_text "q" "T" "hi").2⟩

/-- Counterexample to claim C5: with a prompt whose first processing attempt
raises a transient UI failure and whose second attempt would succeed, the
batch runner neither re-runs the sequence (the claim demands two attempts)
nor completes the prompt normally. -/
theorem batch_no_prompt_retry_cex :
    (processPromptsBatch retryCexBehavior ["p1"] "T").map
        (fun r => r.attemptsMade) ≠ [2] ∧
    (processPromptsBatch retryCexBehavior ["p1"] "T").map
        (fun r => r.completedNormally) ≠ [true] := by
  constructor <;> decide

/-- Every record the batch loop produces counts exactly one invocation of
the prompt-processing sequence, and no prompt is dropped. -/
theorem processPromptsGo_length_attempts
    (behavior : Nat → Nat → PromptAttemptResult) (ts : String) :
    ∀ (i : Nat) (prompts : List String),
      (processPromptsGo behavior ts i prompts).length = prompts.length ∧
      ∀ r, r ∈ processPromptsGo behavior ts i prompts → r.attemptsMade = 1 := by
  intro i prompts
  induction prompts generalizing i with
  | nil => simp [processPromptsGo]
  | cons p rest ih =>
    obtain ⟨ihl, ihm⟩ := ih (i + 1)
    refine ⟨by simp [processPromptsGo, ihl], ?_⟩
    intro r hr
    simp only [processPromptsGo, List.mem_cons] at hr
    rcases hr with hr | hr
    · subst hr
      unfold runPrompt
      cases behavior i 0 <;> rfl
    · exact ihm r hr

/-- Claim C5 amended: the batch runner never retries a prompt's processing
sequence — each prompt gets exactly one attempt, any failure is caught, the
artifacts are persisted and the batch proceeds to the next prompt (no prompt
is dropped and no prompt aborts the run).  Transient UI failures are retried
only at the level of an individual click: `safeClick` retries a transiently
failed click after a fixed 500 ms backoff, up to 3 attempts, so a first
transient click failure followed by success lands the click on the second
attempt. -/
theorem batch_retry_policy :
    (∀ behavior prompts ts,
      (processPromptsBatch behavior prompts ts).length = prompts.length) ∧
    (∀ behavior prompts ts r,
      r ∈ processPromptsBatch behavior prompts ts → r.attemptsMade = 1) ∧
    (∀ outcome : Nat → ClickOutcome,
      outcome 0 = ClickOutcome.transientError → outcome 1 = ClickOutcome.ok →
      safeClick outcome 3 = Except.ok 2) := by
  refine ⟨?_, ?_, ?_⟩
  · intro behavior prompts ts
    exact (processPromptsGo_length_attempts behavior ts 0 prompts).1
  · intro behavior prompts ts r hr
    exact (processPromptsGo_length_attempts behavior ts 0 prompts).2 r hr
  · intro outcome h0 h1
    simp [safeClick, safeClickGo, h0, h1]

/-- Witness for the amended C5 at concrete behaviours. -/
theorem batch_retry_policy_witness :
    (processPromptsBatch behaviorW ["x"] "T").length = 1 ∧
    (runPrompt (behaviorW 0) "x" "T").attemptsMade = 1 ∧
    safeClick clickSeqW 3 = Except.ok 2 :=
  ⟨batch_retry_policy.1 behaviorW ["x"] "T",
   batch_retry_policy.2.1 behaviorW ["x"] "T" (runPrompt (behaviorW 0) "x" "T")
     (by simp [processPromptsBatch, processPromptsGo]),
   batch_retry_policy.2.2 clickSeqW rfl rfl⟩

/-- When no entry matches the streaming mime type, the injection loop is the
identity on the trace. -/
theorem injectSSE_no_match :
    ∀ (tr : List HarEntry) (s : String),
      (∀ e, e ∈ tr → e.mimeType ≠ sseMimeType) → injectSSE tr s = tr := by
  intro tr s h
  induction tr with
  | nil => rfl
  | cons a as ih =>
    simp only [injectSSE, if_neg (h a (List.mem_cons_self a as))]
    rw [ih (fun e he => h e (List.mem_cons_of_mem a he))]

/-- Counterexample to claim C6: on a trace with no streaming-typed entry,
the correlation step leaves the trace unchanged but logs no warning — the
only message it emits is the ordinary success line. -/
theorem correlation_miss_no_warning_cex :
    (injectSSEStep [entryA] "S").1 = [entryA] ∧
    ¬ ∃ m, m ∈ (injectSSEStep [entryA] "S").2 ∧ isWarnMsg m = true := by
  constructor
  · decide
  · decide

/-- Claim C6 amended: if a prompt's trace contains no entry whose declared
content type marks it as the streaming exchange, correlation persists the
trace with every entry's recorded content unchanged and processing continues
(the step is contained in the loop's `finally` block and never throws in the
model), but it does not log a warning: every message it emits is a plain
informational line. -/
theorem correlation_miss_behavior (entries : List HarEntry) (s : String)
    (h : ∀ e, e ∈ entries → e.mimeType ≠ sseMimeType) :
    (injectSSEStep entries s).1 = entries ∧
    ∀ m, m ∈ (injectSSEStep entries s).2 → isWarnMsg m = false := by
  constructor
  · simpa [injectSSEStep] using injectSSE_no_match entries s h
  · intro m hm
    simp only [injectSSEStep, List.mem_singleton] at hm
    subst hm
    rfl

/-- Witness for the amended C6 on a concrete streaming-free trace. -/
theorem correlation_miss_behavior_witness :
    (injectSSEStep [entryA, entryC] "S").1 = [entryA, entryC] ∧
    ∀ m, m ∈ (injectSSEStep [entryA, entryC] "S").2 → isWarnMsg m = false :=
  correlation_miss_behavior [entryA, entryC] "S" (by decide)

/-- Claim C7: offline reconstruction is a deterministic pure function of the
archived trace content — two runs over the same trace yield the same text
regardless of what the response artifact currently holds, and re-running
over an already reconstructed artifact changes nothing, because the run
never reads its own prior output as input. -/
theorem applyReconstruction_deterministic (tr : List HarEntry) (a b : String) :
    applyReconstruction tr a = applyReconstruction tr b ∧
    applyReconstruction tr (applyReconstruction tr a) = applyReconstruction tr a :=
  ⟨rfl, rfl⟩

/-- A failing catalog load blocks the browser launch and that job's catalog
write, wherever the job sits in the list. -/
theorem startupRun_failure_blocks :
    ∀ (jobs : List CsvSource) (i0 k : Nat) (src : CsvSource),
      jobs[k]? = some src → loadFailed src = true →
      StartupEvent.launchedBrowser ∉ (startupRun jobs i0).1 ∧
      StartupEvent.savedCatalog (i0 + k) ∉ (startupRun jobs i0).1 := by
  intro jobs
  induction jobs with
  | nil => intro i0 k src hk; simp at hk
  | cons j rest ih =>
    intro i0 k src hk hf
    cases hload : loadCsvPrompts j with
    | error e =>
      have hrun : startupRun (j :: rest) i0 = ([], .error e) := by
        simp [startupRun, hload]
      rw [hrun]
      simp
    | ok ps =>
      have hrun : startupRun (j :: rest) i0 =
          (StartupEvent.savedCatalog i0 :: (startupRun rest (i0 + 1)).1,
           (startupRun rest (i0 + 1)).2) := by
        simp [startupRun, hload]
      cases k with
      | zero =>
        have hsrc : j = src := by simpa using hk
        subst hsrc
        simp [loadFailed, hload] at hf
      | succ k' =>
        have hk' : rest[k']? = some src := by simpa using hk
        obtain ⟨h1, h2⟩ := ih (i0 + 1) k' src hk' hf
        rw [hrun]
        constructor
        · intro hmem
          simp only [List.mem_cons] at hmem
          rcases hmem with hmem | hmem
          · exact absurd hmem (by simp)
          · exact h1 hmem
        · intro hmem
          simp only [List.mem_cons] at hmem
          rcases hmem with hmem | hmem
          · simp only [StartupEvent.savedCatalog.injEq] at hmem
            omega
          · have heq : i0 + (k' + 1) = (i0 + 1) + k' := by omega
            rw [heq] at hmem
            exact h2 hmem

/-- Claim C8: a prompt-catalog source that is a missing file or that lacks
the required `query` column fails to load; any failing load aborts startup
before the browser is launched and before that source's output directories
(its catalog write) are produced; and on a valid source every row loads as
its `query` cell, a blank cell giving the empty-string prompt. -/
theorem catalog_validation :
    (∀ f, loadFailed (CsvSource.missing f) = true) ∧
    (∀ f records,
      (∀ r, records.head? = some r → hasColumn "query" r = false) →
      loadFailed (CsvSource.parsed f records) = true) ∧
    (∀ jobs k src, jobs[k]? = some src → loadFailed src = true →
      StartupEvent.launchedBrowser ∉ (mainStartup jobs).1 ∧
      StartupEvent.savedCatalog k ∉ (mainStartup jobs).1) ∧
    (∀ f records ps,
      loadCsvPrompts (CsvSource.parsed f records) = Except.ok ps →
      ps = records.map extractQuery) ∧
    (∀ r : CsvRecord, cellValue r "query" = some "" → extractQuery r = "") := by
  refine ⟨?_, ?_, ?_, ?_, ?_⟩
  · intro f
    rfl
  · intro f records h
    cases records with
    | nil => rfl
    | cons r0 rest =>
      have hc : hasColumn "query" r0 = false := h r0 rfl
      simp [loadFailed, loadCsvPrompts, hc]
  · intro jobs k src hk hf
    have := startupRun_failure_blocks jobs 0 k src hk hf
    rwa [Nat.zero_add] at this
  · intro f records ps h
    cases records with
    | nil => simp [loadCsvPrompts] at h
    | cons r0 rest =>
      by_cases hc : hasColumn "query" r0
      · simp only [loadCsvPrompts, if_pos hc, Except.ok.injEq] at h
        exact h.symm
      · simp [loadCsvPrompts, hc] at h
  · intro r h
    simp [extractQuery, h]

/-- Witness for C8: a missing file fails to load, blocks the browser launch
and its own catalog write, and a blank `query` cell extracts as the empty
prompt. -/
theorem catalog_validation_witness :
    loadFailed (CsvSource.missing "a.csv") = true ∧
    StartupEvent.launchedBrowser ∉ (mainStartup [CsvSource.missing "a.csv"]).1 ∧
    StartupEvent.savedCatalog 0 ∉ (mainStartup [CsvSource.missing "a.csv"]).1 ∧
    extractQuery [("query", "")] = "" := by
  refine ⟨catalog_validation.1 "a.csv", ?_, ?_, catalog_validation.2.2.2.2 [("query", "")] rfl⟩
  · exact (catalog_validation.2.2.1 [CsvSource.missing "a.csv"] 0
      (CsvSource.missing "a.csv") rfl (catalog_validation.1 "a.csv")).1
  · exact (catalog_validation.2.2.1 [CsvSource.missing "a.csv"] 0
      (CsvSource.missing "a.csv") rfl (catalog_validation.1 "a.csv")).2

/-- Claim C9: in the Claude batch runner, the text submitted for prompt
`idx` and the text written after `Prompt: ` in the persisted response-file
header is the catalog query prefixed with the literal string
"Search the web for: ", and never the raw catalog query itself. -/
theorem claude_submits_prefixed_query (prompts : List String) (idx : Nat)
    (q : String) (hq : prompts[idx]? = some q) :
    claudeSubmittedText prompts idx = "Search the web for: " ++ q ∧
    claudeSubmittedText prompts idx ≠ q ∧
    ∀ ts answer, ∃ tail,
      claudeSavedAnswerFile prompts idx ts answer =
        "Prompt: " ++ ("Search the web for: " ++ q) ++ tail := by
  have h1 : claudeSubmittedText prompts idx = "Search the web for: " ++ q := by
    simp [claudeSubmittedText, claudePromptFor, List.getD, hq]
  refine ⟨h1, ?_, ?_⟩
  · rw [h1]
    intro hcontr
    have hlen := congrArg String.length hcontr
    rw [String.length_append] at hlen
    have h20 : ("Search the web for: " : String).length = 20 := rfl
    rw [h20] at hlen
    omega
  · intro ts answer
    refine ⟨"\nTimestamp: " ++ ts ++ "\n\n" ++
      (if answer = "" then noAnswerPlaceholder else answer), ?_⟩
    simp [claudeSavedAnswerFile, savedAnswerFile, answerHeader,
      claudePromptFor, List.getD, hq, String.append_assoc]

/-- Witness for C9 on a one-element catalog. -/
theorem claude_submits_prefixed_query_witness :
    claudeSubmittedText ["cats"] 0 = "Search the web for: " ++ "cats" ∧
    claudeSubmittedText ["cats"] 0 ≠ "cats" ∧
    ∀ ts answer, ∃ tail,
      claudeSavedAnswerFile ["cats"] 0 ts answer =
        "Prompt: " ++ ("Search the web for: " ++ "cats") ++ tail :=
  claude_submits_prefixed_query ["cats"] 0 "cats" rfl

/-- Claim C10: a source that parses to zero data rows makes `loadCsvPrompts`
throw, so startup aborts on an empty catalog as well: with such a source
configured first, the browser is never launched. -/
theorem empty_catalog_fatal (f : String) (rest : List CsvSource) :
    loadCsvPrompts (CsvSource.parsed f []) =
      Except.error ("CSV has no data rows: " ++ f) ∧
    loadFailed (CsvSource.parsed f []) = true ∧
    StartupEvent.launchedBrowser ∉
      (startupRun (CsvSource.parsed f [] :: rest) 0).1 := by
  refine ⟨rfl, rfl, ?_⟩
  have hrun : startupRun (CsvSource.parsed f [] :: rest) 0 =
      ([], .error ("CSV has no data rows: " ++ f)) := by
    simp [startupRun, loadCsvPrompts]
  rw [hrun]
  simp
